import Mathlib

/-!
# Database secret backend credentials (terraform-provider-vault)

A shallow embedding of `vault/resource_database_secret_backend_credentials.go`:
the credentials path, the Create / Read / Delete operations of the resource and
the renewal gate `leaseExpiringSoon`, followed by theorems about them.

Modelling conventions

* A `time.Time` is an `Int`: nanoseconds since the Unix epoch of the wall clock.
  `Time.Add`, `Before` and `After` are exact on that representation (a parsed
  timestamp carries no monotonic reading, so every comparison in the source is a
  wall-clock comparison, and the int64 second counter of `time.Time` cannot
  overflow for four-digit years plus an int64 nanosecond `Duration`).
* A `time.Duration` is an int64 count of nanoseconds; products of durations wrap
  modulo 2^64 as Go's int64 multiplication does (`wrapInt64`).
* `*schema.ResourceData` is the record `ResourceData` (the id and the seven schema
  attributes); `d.Get` / `d.Set` / `d.Id` / `d.SetId` are field reads and updates.
* The Vault client is `Client`; every call is appended to `World.calls`, and
  every `time.Now()` consumes one reading of `World.clock`.
* `log.Printf` has no effect on the record, the gateway or the result and is
  left out.
-/

namespace Vault

/-! ## Go integers, durations and instants -/

/-- Two's-complement wraparound of an integer into the int64 range. -/
def wrapInt64 (x : Int) : Int :=
  (x + 9223372036854775808) % 18446744073709551616 - 9223372036854775808

/-- Go's `time.Duration` product `a * b` (int64 multiplication). -/
def durationMul (a b : Int) : Int := wrapInt64 (a * b)

/-- Constant `time.Second`, in nanoseconds. -/
def timeSecond : Int := 1000000000

/-- Constant `time.Minute`, in nanoseconds. -/
def timeMinute : Int := 60000000000

/-- Method `Time.Add`. -/
def timeAdd (t dur : Int) : Int := t + dur

/-- Method `Time.Before`: strictly earlier. -/
def timeBefore (t u : Int) : Bool := decide (t < u)

/-- Method `Time.After`: strictly later. -/
def timeAfter (t u : Int) : Bool := decide (t > u)

/-! ## Library functions the source calls -/

/-- The Go standard-library functions used by the source, taken as parameters:
`time.Parse(time.RFC3339, s)` (`none` is a parse error), `t.Format(time.RFC3339)`
and the `%q` verb of `fmt`. The general theorems hold for every such library;
`goUTC` below is the instance used at concrete inputs. -/
structure GoLib where
  parseRFC3339 : String → Option Int
  formatRFC3339 : Int → String
  quote : String → String
  /-- The parser reports an error on the empty string. -/
  parse_empty : parseRFC3339 "" = none

/-! ## The record, the gateway and the world -/

/-- The resource record: `d.Id()` and the schema attributes. -/
structure ResourceData where
  id : String
  name : String
  backend : String
  username : String
  password : String
  lease_renewable : Bool
  lease_duration : Int
  lease_started : String
deriving DecidableEq, Repr

/-- The fields of `api.Secret` the source reads. `Data` is the lookup of the
`map[string]interface{}`; `none` is a missing key (Go yields a nil interface). -/
structure Secret where
  LeaseID : String
  LeaseDuration : Int
  Renewable : Bool
  Data : String → Option String

/-- A call made on the Vault client. -/
inductive Call where
  | read (path : String)
  | revoke (leaseID : String)
deriving DecidableEq, Repr

/-- The two results of `client.Logical().Read(path)`: `(secret, err)`, each of
which may be nil. -/
structure ReadResult where
  secret : Option Secret
  err : Option String

/-- The Vault client (the gateway). Its answers may depend on the calls made
before. `revoke` returns the error of `client.Sys().Revoke`, `none` for nil. -/
structure Client where
  read : List Call → String → ReadResult
  revoke : List Call → String → Option String

/-- The world outside the record: successive readings of `time.Now()`, how many
of them were consumed, and the gateway calls made so far (oldest first). -/
structure World where
  clock : Nat → Int
  ticks : Nat
  calls : List Call

/-- Function `time.Now()`: the next clock reading. -/
def timeNow (w : World) : Int × World :=
  (w.clock w.ticks, { w with ticks := w.ticks + 1 })

/-- Call `client.Logical().Read(path)`. -/
def logicalRead (client : Client) (path : String) (w : World) : ReadResult × World :=
  (client.read w.calls path, { w with calls := w.calls ++ [Call.read path] })

/-- Call `client.Sys().Revoke(id)`. -/
def sysRevoke (client : Client) (id : String) (w : World) : Option String × World :=
  (client.revoke w.calls id, { w with calls := w.calls ++ [Call.revoke id] })

/-- How a resource operation ends: it returns an `error` (`none` is nil) or the
goroutine panics. -/
inductive Exit where
  | returned (err : Option String)
  | panicked
deriving DecidableEq, Repr

/-- The outcome of a resource operation: how it ended, the record and the world
at that point. -/
structure Run where
  exit : Exit
  d : ResourceData
  w : World

/-- What `d.Set` stores in a string attribute for an interface value: a nil
value stores the empty string. -/
def setString (v : Option String) : String := v.getD ""

/-! ## The source functions -/

/-- Function `strings.Trim(s, cutset)`: drop every leading and trailing character
that occurs in `cutset`. -/
def stringsTrim (s cutset : String) : String :=
  String.mk
    (((s.data.dropWhile (fun c => cutset.data.contains c)).reverse.dropWhile
      (fun c => cutset.data.contains c)).reverse)

/-- Source lines 108-110. -/
def databaseSecretBackendCredentialsPath (backend name : String) : String :=
  stringsTrim backend "/" ++ "/creds/" ++ stringsTrim name "/"

/-- Source lines 112-139. Returns the verdict, the record (its `lease_started`
is cleared on a parse error) and the world (each check reads the clock). -/
def leaseExpiringSoon (lib : GoLib) (d : ResourceData) (w : World) :
    Bool × ResourceData × World :=
  let startedStr := d.lease_started
  let duration := d.lease_duration
  if startedStr = "" then (false, d, w)
  else
    match lib.parseRFC3339 startedStr with
    | none => (false, { d with lease_started := "" }, w)
    | some started =>
      let n1 := timeNow w
      if timeBefore
          (timeAdd (timeAdd started (durationMul timeSecond duration)) (durationMul timeMinute 5))
          n1.1 then (false, d, n1.2)
      else
        let n2 := timeNow n1.2
        if timeAfter (timeAdd started (durationMul timeSecond duration))
            (timeAdd n2.1 (durationMul timeMinute (-5))) then (false, d, n2.2)
        else (true, d, n2.2)

/-- Source lines 63-87. The read error is checked first; `secret.LeaseID` on a
nil secret is a nil-pointer dereference. -/
def databaseSecretBackendCredentialsCreate (lib : GoLib) (client : Client)
    (d : ResourceData) (w : World) : Run :=
  let backend := d.backend
  let name := d.name
  let path := databaseSecretBackendCredentialsPath backend name
  let r := logicalRead client path w
  match r.1.err with
  | some err =>
    ⟨Exit.returned (some ("Error creating role " ++ lib.quote name ++ " for backend "
        ++ lib.quote backend ++ ": " ++ err)), d, r.2⟩
  | none =>
    match r.1.secret with
    | none => ⟨Exit.panicked, d, r.2⟩
    | some secret =>
      let d1 := { d with id := secret.LeaseID }
      let n := timeNow r.2
      let d2 := { d1 with lease_started := lib.formatRFC3339 n.1 }
      let d3 := { d2 with name := name }
      let d4 := { d3 with backend := backend }
      let d5 := { d4 with username := setString (secret.Data "username") }
      let d6 := { d5 with password := setString (secret.Data "password") }
      let d7 := { d6 with lease_renewable := secret.Renewable }
      let d8 := { d7 with lease_duration := secret.LeaseDuration }
      ⟨Exit.returned none, d8, n.2⟩

/-- Source lines 89-95. -/
def databaseSecretBackendCredentialsRead (lib : GoLib) (client : Client)
    (d : ResourceData) (w : World) : Run :=
  let g := leaseExpiringSoon lib d w
  if !g.1 then ⟨Exit.returned none, g.2.1, g.2.2⟩
  else databaseSecretBackendCredentialsCreate lib client g.2.1 g.2.2

/-- Source lines 97-106. -/
def databaseSecretBackendCredentialsDelete (lib : GoLib) (client : Client)
    (d : ResourceData) (w : World) : Run :=
  let r := sysRevoke client d.id w
  match r.1 with
  | some err =>
    ⟨Exit.returned (some ("Error revoking credentials " ++ lib.quote d.id ++ ": " ++ err)),
      d, r.2⟩
  | none => ⟨Exit.returned none, d, r.2⟩

/-! ## A concrete library instance

The standard library on canonical inputs: timestamps of the form
`YYYY-MM-DDTHH:MM:SSZ` (what `Format(time.RFC3339)` prints for a UTC clock) and
`%q` on ASCII text. It is used only to evaluate the source at concrete inputs. -/

/-- Days between 1970-01-01 and the proleptic Gregorian date `y-m-d`. -/
def daysFromCivil (y m d : Int) : Int :=
  let y1 := if m ≤ 2 then y - 1 else y
  let era := y1 / 400
  let yoe := y1 - era * 400
  let mp := if m > 2 then m - 3 else m + 9
  let doy := (153 * mp + 2) / 5 + d - 1
  let doe := yoe * 365 + yoe / 4 - yoe / 100 + doy
  era * 146097 + doe - 719468

/-- The proleptic Gregorian date `(year, month, day)` that lies `z0` days after
1970-01-01. -/
def civilFromDays (z0 : Int) : Int × Int × Int :=
  let z := z0 + 719468
  let era := z / 146097
  let doe := z - era * 146097
  let yoe := (doe - doe / 1460 + doe / 36524 - doe / 146096) / 365
  let doy := doe - (365 * yoe + yoe / 4 - yoe / 100)
  let mp := (5 * doy + 2) / 153
  let d := doy - (153 * mp + 2) / 5 + 1
  let m := if mp < 10 then mp + 3 else mp - 9
  let y := yoe + era * 400
  (if m ≤ 2 then y + 1 else y, m, d)

/-- Gregorian leap year. -/
def isLeap (y : Nat) : Bool := y % 4 = 0 && (y % 100 != 0 || y % 400 = 0)

/-- Number of days of month `m` in year `y`. -/
def daysIn (y m : Nat) : Nat :=
  if m = 2 then (if isLeap y then 29 else 28)
  else if m = 4 ∨ m = 6 ∨ m = 9 ∨ m = 11 then 30 else 31

/-- Value of a decimal digit. -/
def digitValue (c : Char) : Option Nat :=
  if 48 ≤ c.toNat ∧ c.toNat ≤ 57 then some (c.toNat - 48) else none

/-- Value of a run of decimal digits; `none` if one of them is not a digit. -/
def digits (cs : List Char) : Option Nat :=
  cs.foldlM (fun acc c => (digitValue c).map (fun v => 10 * acc + v)) 0

/-- Parser `time.Parse(time.RFC3339, s)` on `YYYY-MM-DDTHH:MM:SSZ`, with the range
checks of the library (month, day of month, hour, minute, second); any other
spelling is reported as an error here. -/
def parseRFC3339UTC (s : String) : Option Int :=
  match s.data with
  | [y1, y2, y3, y4, p1, m1, m2, p2, d1, d2, pT, h1, h2, c1, n1, n2, c2, s1, s2, pZ] =>
    if p1 = '-' ∧ p2 = '-' ∧ pT = 'T' ∧ c1 = ':' ∧ c2 = ':' ∧ pZ = 'Z' then
      match digits [y1, y2, y3, y4], digits [m1, m2], digits [d1, d2],
          digits [h1, h2], digits [n1, n2], digits [s1, s2] with
      | some y, some m, some d, some h, some n, some sec =>
        if 1 ≤ m ∧ m ≤ 12 ∧ 1 ≤ d ∧ d ≤ daysIn y m ∧ h < 24 ∧ n < 60 ∧ sec < 60 then
          some ((daysFromCivil y m d * 86400 + h * 3600 + n * 60 + sec) * 1000000000)
        else none
      | _, _, _, _, _, _ => none
    else none
  | _ => none

/-- Decimal digit character of `n % 10`. -/
def digitChar (n : Nat) : Char := Char.ofNat (48 + n % 10)

/-- Two decimal digits. -/
def pad2 (n : Nat) : List Char := [digitChar (n / 10), digitChar n]

/-- Four decimal digits. -/
def pad4 (n : Nat) : List Char := digitChar (n / 1000) :: digitChar (n / 100) :: pad2 n

/-- Method `t.Format(time.RFC3339)` for a clock in UTC and a year in 0000-9999:
the instant truncated to the second, printed as `YYYY-MM-DDTHH:MM:SSZ`. -/
def formatRFC3339UTC (t : Int) : String :=
  let secs := t / 1000000000
  let days := secs / 86400
  let rem := (secs % 86400).toNat
  let ymd := civilFromDays days
  String.mk (pad4 ymd.1.toNat ++ ['-'] ++ pad2 ymd.2.1.toNat ++ ['-'] ++ pad2 ymd.2.2.toNat
    ++ ['T'] ++ pad2 (rem / 3600) ++ [':'] ++ pad2 (rem / 60 % 60) ++ [':'] ++ pad2 (rem % 60)
    ++ ['Z'])

/-- Lower-case hexadecimal digit. -/
def hexDigit (n : Nat) : Char := "0123456789abcdef".data.getD n '0'

/-- How `%q` writes one character: the double quote (34) and the backslash (92)
are escaped, printable ASCII is copied, control characters are written as
escapes; characters above 127 are copied, as the library does for printable
ones. -/
def quoteChar (c : Char) : List Char :=
  let n := c.toNat
  if n = 34 ∨ n = 92 then [Char.ofNat 92, c]
  else if 32 ≤ n ∧ n ≤ 126 then [c]
  else if n = 7 then [Char.ofNat 92, 'a']
  else if n = 8 then [Char.ofNat 92, 'b']
  else if n = 12 then [Char.ofNat 92, 'f']
  else if n = 10 then [Char.ofNat 92, 'n']
  else if n = 13 then [Char.ofNat 92, 'r']
  else if n = 9 then [Char.ofNat 92, 't']
  else if n = 11 then [Char.ofNat 92, 'v']
  else if n < 32 ∨ n = 127 then [Char.ofNat 92, 'x', hexDigit (n / 16), hexDigit (n % 16)]
  else [c]

/-- The `%q` verb: the text between double quotes, each character written by
`quoteChar`. -/
def quoteASCII (s : String) : String :=
  String.mk ([Char.ofNat 34] ++ s.data.flatMap quoteChar ++ [Char.ofNat 34])

/-- The library instance used at concrete inputs. -/
def goUTC : GoLib :=
  ⟨parseRFC3339UTC, formatRFC3339UTC, quoteASCII, by decide⟩

/-- A clock that shows the same instant at every reading. -/
def constClock (t : Int) : Nat → Int := fun _ => t

/-- A clock whose first reading is `t1` and whose later readings are `t2`. -/
def stepClock (t1 t2 : Int) : Nat → Int := fun n => if n = 0 then t1 else t2

/-- A world in which nothing has happened yet. -/
def freshWorld (clock : Nat → Int) : World := ⟨clock, 0, []⟩

/-- The text of `n` path separators. -/
def slashes (n : Nat) : String := String.mk (List.replicate n '/')

/-! ## Concrete inputs used below -/

/-- A record whose lease started at 2020-01-01T00:00:00Z and lasts `dur` seconds. -/
def leaseOf (dur : Int) : ResourceData :=
  ⟨"abc", "readonly", "database/", "u1", "p1", true, dur, "2020-01-01T00:00:00Z"⟩

/-- Unix time of 2020-01-01T00:00:00Z, in nanoseconds. -/
def t2020 : Int := 1577836800000000000

/-- A gateway that answers a read of `database/creds/readonly` with the lease
`abc` (user `u1`, password `p1`, renewable, 3600 seconds), fails every other read,
and accepts every revoke. -/
def okClient : Client :=
  ⟨fun _ p =>
      if p = "database/creds/readonly" then
        ⟨some ⟨"abc", 3600, true,
          fun k => if k = "username" then some "u1" else if k = "password" then some "p1"
            else none⟩, none⟩
      else ⟨none, some "unsupported path"⟩,
    fun _ _ => none⟩

/-- A gateway whose every call fails with `permission denied`. -/
def failClient : Client :=
  ⟨fun _ _ => ⟨none, some "permission denied"⟩, fun _ _ => some "permission denied"⟩

/-- A gateway whose read returns neither a secret nor an error, as the Vault
client does for a 404 response; it accepts every revoke. -/
def emptyClient : Client :=
  ⟨fun _ _ => ⟨none, none⟩, fun _ _ => none⟩

/-- The record of a resource that is about to be created. -/
def newRecord : ResourceData :=
  ⟨"", "readonly", "database/", "", "", false, 0, ""⟩

/-! ## Arithmetic of the renewal gate -/

theorem durationMul_minute_five : durationMul timeMinute 5 = 300000000000 := by
  decide

theorem durationMul_minute_neg_five : durationMul timeMinute (-5) = -300000000000 := by
  decide

theorem durationMul_second_fits (n : Int)
    (hlo : -9223372036854775808 ≤ n * 1000000000)
    (hhi : n * 1000000000 < 9223372036854775808) :
    durationMul timeSecond n = n * 1000000000 := by
  unfold durationMul wrapInt64 timeSecond
  omega

theorem started_ne_empty (lib : GoLib) (s : String) (S : Int)
    (h : lib.parseRFC3339 s = some S) : s ≠ "" := by
  intro he
  rw [he, lib.parse_empty] at h
  cases h

/-- The verdict of the gate on a record whose `lease_started` parses to `S`, in
terms of the int64 duration `D = time.Second * lease_duration` and the two clock
readings: due exactly when `now1 - 5min ≤ S + D ≤ now2 - 5min`. -/
theorem leaseExpiringSoon_verdict (lib : GoLib) (d : ResourceData) (w : World) (S : Int)
    (h : lib.parseRFC3339 d.lease_started = some S) :
    (leaseExpiringSoon lib d w).1 =
      (decide (w.clock w.ticks - 300000000000 ≤ S + durationMul timeSecond d.lease_duration) &&
       decide (S + durationMul timeSecond d.lease_duration
          ≤ w.clock (w.ticks + 1) - 300000000000)) := by
  have hne := started_ne_empty lib d.lease_started S h
  unfold leaseExpiringSoon
  simp only [hne, if_false, h, timeNow, timeBefore, timeAfter, timeAdd,
    durationMul_minute_five, durationMul_minute_neg_five]
  by_cases h1 : S + durationMul timeSecond d.lease_duration + 300000000000 < w.clock w.ticks
  · have h1n : ¬ (w.clock w.ticks - 300000000000 ≤ S + durationMul timeSecond d.lease_duration) := by
      omega
    simp [h1, h1n]
  · have h1p : w.clock w.ticks - 300000000000 ≤ S + durationMul timeSecond d.lease_duration := by
      omega
    by_cases h2 : S + durationMul timeSecond d.lease_duration
        > w.clock (w.ticks + 1) + -300000000000
    · have h2n : ¬ (S + durationMul timeSecond d.lease_duration
          ≤ w.clock (w.ticks + 1) - 300000000000) := by omega
      simp [h1, h1p, h2, h2n]
    · have h2p : S + durationMul timeSecond d.lease_duration
          ≤ w.clock (w.ticks + 1) - 300000000000 := by omega
      simp [h1, h1p, h2, h2p]

/-- The gate never changes a record whose `lease_started` parses. -/
theorem leaseExpiringSoon_record (lib : GoLib) (d : ResourceData) (w : World) (S : Int)
    (h : lib.parseRFC3339 d.lease_started = some S) :
    (leaseExpiringSoon lib d w).2.1 = d := by
  have hne := started_ne_empty lib d.lease_started S h
  unfold leaseExpiringSoon
  simp only [hne, if_false, h]
  split
  · rfl
  · split <;> rfl

/-- The gate makes no gateway call. -/
theorem leaseExpiringSoon_calls (lib : GoLib) (d : ResourceData) (w : World) :
    (leaseExpiringSoon lib d w).2.2.calls = w.calls := by
  unfold leaseExpiringSoon
  simp only []
  split
  · rfl
  · split
    · rfl
    · split
      · rfl
      · split <;> rfl

/-- When the gate reports due it has left the record alone and read the clock
twice. -/
theorem leaseExpiringSoon_due_state (lib : GoLib) (d : ResourceData) (w : World)
    (h : (leaseExpiringSoon lib d w).1 = true) :
    (leaseExpiringSoon lib d w).2 = (d, { w with ticks := w.ticks + 2 }) := by
  unfold leaseExpiringSoon at h ⊢
  simp only [] at h ⊢
  split at h
  · cases h
  · split at h
    · cases h
    · split at h
      · cases h
      · split at h
        · cases h
        · rename_i hne _ S hS hb1 hb2
          simp only [timeNow] at hb1 hb2
          simp [hne, hS, hb1, hb2, timeNow]

/-! ## Trimming -/

theorem dropWhile_replicate_append (p : Char → Bool) (c : Char) (hc : p c = true)
    (n : Nat) (l : List Char) :
    (List.replicate n c ++ l).dropWhile p = l.dropWhile p := by
  induction n with
  | zero => simp
  | succ k ih => simp [List.replicate_succ, List.dropWhile_cons, hc, ih]

theorem dropWhile_of_head (p : Char → Bool) (c : Char)
    (hp : ∀ x, p x = true → x = c) (l : List Char) (h : l.head? ≠ some c) :
    l.dropWhile p = l := by
  cases l with
  | nil => rfl
  | cons x xs =>
    have hx : p x = false := by
      cases hpx : p x with
      | false => rfl
      | true =>
        exfalso
        apply h
        simp [hp x hpx]
    simp [List.dropWhile_cons, hx]

/-- Trimming `c` from both ends of `c^i ++ b ++ c^j` gives back `b` when `b`
neither begins nor ends with `c`. -/
theorem trim_replicate_both (p : Char → Bool) (c : Char) (hc : p c = true)
    (hp : ∀ x, p x = true → x = c) (b : List Char) (i j : Nat)
    (h1 : b.head? ≠ some c) (h2 : b.getLast? ≠ some c) :
    (((List.replicate i c ++ b ++ List.replicate j c).dropWhile p).reverse.dropWhile p).reverse
      = b := by
  rw [List.append_assoc, dropWhile_replicate_append p c hc]
  cases b with
  | nil =>
    have h0 : (List.replicate j c).dropWhile p = [] := by
      have := dropWhile_replicate_append p c hc j []
      simpa using this
    simp [h0]
  | cons x xs =>
    have hx : ((x :: xs) ++ List.replicate j c).head? ≠ some c := by
      simpa using h1
    rw [dropWhile_of_head p c hp _ hx]
    rw [List.reverse_append, List.reverse_replicate, dropWhile_replicate_append p c hc]
    have hr : (x :: xs).reverse.head? ≠ some c := by
      rw [List.head?_reverse]
      exact h2
    rw [dropWhile_of_head p c hp _ hr, List.reverse_reverse]

theorem stringsTrim_slashes (b : String) (i j : Nat)
    (h1 : b.data.head? ≠ some '/') (h2 : b.data.getLast? ≠ some '/') :
    stringsTrim (slashes i ++ b ++ slashes j) "/" = b := by
  unfold stringsTrim slashes
  have hc : (fun c : Char => "/".data.contains c) '/' = true := by decide
  have hp : ∀ x, (fun c : Char => "/".data.contains c) x = true → x = '/' := by
    intro x hx
    have : "/".data = ['/'] := rfl
    simp only [this] at hx
    simpa using hx
  simp only [String.data_append]
  rw [trim_replicate_both _ '/' hc hp b.data i j h1 h2]

/-! ## The renewal gate -/

/-- C1, counterexample: a lease that started at 2020-01-01T00:00:00Z with
duration 0, checked by a clock that reads exactly five minutes later, is reported
due: the final `return true` of `leaseExpiringSoon` is reached. It is reached as
well when the first check reads the clock one nanosecond before that instant and
the second check one nanosecond after it. -/
theorem leaseExpiringSoon_due_reached :
    (leaseExpiringSoon goUTC (leaseOf 0)
      (freshWorld (constClock (t2020 + 300000000000)))).1 = true ∧
    (leaseExpiringSoon goUTC (leaseOf 0)
      (freshWorld (stepClock (t2020 + 299999999999) (t2020 + 300000000001)))).1 = true := by
  decide

/-- C1, amended: with both checks reading the same instant `now`, the gate
reports not due for every record whose `lease_started` is empty or does not
parse, and for every record whose `lease_started` parses to `S` and whose expiry
`S + D` lies more than five minutes before `now` or more than five minutes after
`now`, where `D` is the int64 duration `time.Second * lease_duration`. -/
theorem leaseExpiringSoon_not_due_outside_window (lib : GoLib) (d : ResourceData)
    (w : World) (now : Int)
    (h1 : w.clock w.ticks = now) (h2 : w.clock (w.ticks + 1) = now)
    (hout : ∀ S, lib.parseRFC3339 d.lease_started = some S →
      S + durationMul timeSecond d.lease_duration + 300000000000 < now ∨
      now + 300000000000 < S + durationMul timeSecond d.lease_duration) :
    (leaseExpiringSoon lib d w).1 = false := by
  cases hp : lib.parseRFC3339 d.lease_started with
  | none =>
    unfold leaseExpiringSoon
    simp only [hp]
    split <;> rfl
  | some S =>
    have hS := hout S hp
    rw [leaseExpiringSoon_verdict lib d w S hp, h1, h2]
    by_cases ha : now - 300000000000 ≤ S + durationMul timeSecond d.lease_duration
    · have hb : ¬ (S + durationMul timeSecond d.lease_duration ≤ now - 300000000000) := by
        omega
      simp [hb]
    · simp [ha]

/-- Witness of `leaseExpiringSoon_not_due_outside_window` (C1): a lease of 3600
seconds checked at the instant it started; its expiry is an hour ahead. -/
theorem leaseExpiringSoon_not_due_outside_window_witness :
    (leaseExpiringSoon goUTC (leaseOf 3600) (freshWorld (constClock t2020))).1 = false :=
  leaseExpiringSoon_not_due_outside_window goUTC (leaseOf 3600)
    (freshWorld (constClock t2020)) t2020 rfl rfl
    (by
      intro S hS
      have hp : goUTC.parseRFC3339 (leaseOf 3600).lease_started = some t2020 := by decide
      rw [hp] at hS
      cases hS
      decide)

/-- C2, the code at a failing input: a lease that started at 2020-01-01T00:00:00Z
and lasts 3600 seconds, checked one minute before it expires. The expiry lies
strictly between `now - 5min` and `now + 5min`, and the gate reports not due. -/
theorem leaseExpiringSoon_one_minute_before_expiry :
    goUTC.parseRFC3339 (leaseOf 3600).lease_started = some t2020 ∧
    (t2020 + 3540000000000) - 300000000000 < t2020 + 3600 * 1000000000 ∧
    t2020 + 3600 * 1000000000 < (t2020 + 3540000000000) + 300000000000 ∧
    (leaseExpiringSoon goUTC (leaseOf 3600)
      (freshWorld (constClock (t2020 + 3540000000000)))).1 = false := by
  decide

/-- C5: on a record whose `lease_started` is empty or does not parse the gate
reports not due, reads no clock and makes no call, and leaves the record with
`lease_started` empty and everything else unchanged; evaluating the resulting
record again, in any world, reports not due and changes nothing. -/
theorem leaseExpiringSoon_unparsable (lib : GoLib) (d : ResourceData) (w : World)
    (h : d.lease_started = "" ∨ lib.parseRFC3339 d.lease_started = none) :
    leaseExpiringSoon lib d w = (false, { d with lease_started := "" }, w) ∧
    ∀ w2 : World, leaseExpiringSoon lib { d with lease_started := "" } w2
      = (false, { d with lease_started := "" }, w2) := by
  constructor
  · unfold leaseExpiringSoon
    by_cases he : d.lease_started = ""
    · simp only [he, if_true]
      have hd : d = { d with lease_started := "" } := by
        cases d
        simp only [ResourceData.mk.injEq, true_and]
        exact he
      rw [← hd]
    · have hp : lib.parseRFC3339 d.lease_started = none := by
        cases h with
        | inl h0 => exact absurd h0 he
        | inr h0 => exact h0
      simp only [he, if_false, hp]
  · intro w2
    unfold leaseExpiringSoon
    simp only [if_true]

/-- Witness of `leaseExpiringSoon_unparsable` (C5): a record whose `lease_started`
is the text `yesterday`. -/
theorem leaseExpiringSoon_unparsable_witness :
    leaseExpiringSoon goUTC { leaseOf 3600 with lease_started := "yesterday" }
        (freshWorld (constClock t2020))
      = (false, { leaseOf 3600 with lease_started := "" }, freshWorld (constClock t2020)) ∧
    ∀ w2 : World, leaseExpiringSoon goUTC { leaseOf 3600 with lease_started := "" } w2
      = (false, { leaseOf 3600 with lease_started := "" }, w2) :=
  leaseExpiringSoon_unparsable goUTC { leaseOf 3600 with lease_started := "yesterday" }
    (freshWorld (constClock t2020)) (Or.inr (by decide))

/-- C10: for a record whose `lease_started` parses to `S` and whose
`lease_duration` `n` has `n * 10^9` in the int64 range, the gate reports due
exactly when `now1 - 5min ≤ S + n s ≤ now2 - 5min`, `now1` and `now2` being the
clock readings of the first and the second check; when both readings are the
same instant `now`, exactly when `S + n s = now - 5min`. -/
theorem leaseExpiringSoon_due_iff (lib : GoLib) (d : ResourceData) (w : World) (S : Int)
    (hparse : lib.parseRFC3339 d.lease_started = some S)
    (hlo : -9223372036854775808 ≤ d.lease_duration * 1000000000)
    (hhi : d.lease_duration * 1000000000 < 9223372036854775808) :
    ((leaseExpiringSoon lib d w).1 = true ↔
      (w.clock w.ticks - 300000000000 ≤ S + d.lease_duration * 1000000000 ∧
       S + d.lease_duration * 1000000000 ≤ w.clock (w.ticks + 1) - 300000000000)) ∧
    (∀ now : Int, w.clock w.ticks = now → w.clock (w.ticks + 1) = now →
      ((leaseExpiringSoon lib d w).1 = true ↔
        S + d.lease_duration * 1000000000 = now - 300000000000)) := by
  have hv := leaseExpiringSoon_verdict lib d w S hparse
  rw [durationMul_second_fits d.lease_duration hlo hhi] at hv
  have hfirst : (leaseExpiringSoon lib d w).1 = true ↔
      (w.clock w.ticks - 300000000000 ≤ S + d.lease_duration * 1000000000 ∧
       S + d.lease_duration * 1000000000 ≤ w.clock (w.ticks + 1) - 300000000000) := by
    rw [hv, Bool.and_eq_true, decide_eq_true_eq, decide_eq_true_eq]
  refine ⟨hfirst, ?_⟩
  intro now h1 h2
  rw [hfirst, h1, h2]
  constructor
  · intro hx
    omega
  · intro hx
    omega

/-- Witness of `leaseExpiringSoon_due_iff` (C10): `S` = 2020-01-01T00:00:00Z,
duration 0, and a clock that reads `S + 300 s` at both checks. -/
theorem leaseExpiringSoon_due_iff_witness :
    ((leaseExpiringSoon goUTC (leaseOf 0) (freshWorld (constClock (t2020 + 300000000000)))).1
        = true ↔
      t2020 + (0 : Int) * 1000000000 = (t2020 + 300000000000) - 300000000000) ∧
    t2020 + (0 : Int) * 1000000000 = (t2020 + 300000000000) - 300000000000 :=
  ⟨(leaseExpiringSoon_due_iff goUTC (leaseOf 0)
      (freshWorld (constClock (t2020 + 300000000000))) t2020
      (by decide) (by decide) (by decide)).2 (t2020 + 300000000000) rfl rfl,
    by decide⟩

/-! ## The credentials path -/

/-- C4: for texts `b` and `r` that neither begin nor end with a separator, and
any numbers of separators around them, the path of
`"/"^i ++ b ++ "/"^j` and `"/"^k ++ r ++ "/"^l` is `b ++ "/creds/" ++ r`. -/
theorem credentialsPath_strips_ends (b r : String) (i j k l : Nat)
    (hb1 : b.data.head? ≠ some '/') (hb2 : b.data.getLast? ≠ some '/')
    (hr1 : r.data.head? ≠ some '/') (hr2 : r.data.getLast? ≠ some '/') :
    databaseSecretBackendCredentialsPath (slashes i ++ b ++ slashes j)
        (slashes k ++ r ++ slashes l)
      = b ++ "/creds/" ++ r := by
  unfold databaseSecretBackendCredentialsPath
  rw [stringsTrim_slashes b i j hb1 hb2, stringsTrim_slashes r k l hr1 hr2]

/-- Witness of `credentialsPath_strips_ends` (C4): an internal double separator
is kept, the ones at the ends go. -/
theorem credentialsPath_strips_ends_witness :
    databaseSecretBackendCredentialsPath (slashes 2 ++ "a//b" ++ slashes 1)
        (slashes 0 ++ "x/y" ++ slashes 3)
      = "a//b" ++ "/creds/" ++ "x/y" :=
  credentialsPath_strips_ends "a//b" "x/y" 2 1 0 3
    (by decide) (by decide) (by decide) (by decide)

/-! ## Create, Read and Delete -/

/-- C3: when the gateway read of the credentials path returns a secret and no
error, Create makes that one read, returns nil, and leaves the record with the
secret's lease id, the same name and backend, the secret's username, password,
renewable flag and lease duration, and `lease_started` the RFC 3339 rendering of
the clock reading. -/
theorem create_success (lib : GoLib) (client : Client) (d : ResourceData) (w : World)
    (s : Secret)
    (hs : (client.read w.calls
      (databaseSecretBackendCredentialsPath d.backend d.name)).secret = some s)
    (he : (client.read w.calls
      (databaseSecretBackendCredentialsPath d.backend d.name)).err = none) :
    (databaseSecretBackendCredentialsCreate lib client d w).exit = Exit.returned none ∧
    (databaseSecretBackendCredentialsCreate lib client d w).w.calls
      = w.calls ++ [Call.read (databaseSecretBackendCredentialsPath d.backend d.name)] ∧
    (databaseSecretBackendCredentialsCreate lib client d w).d
      = ⟨s.LeaseID, d.name, d.backend, setString (s.Data "username"),
          setString (s.Data "password"), s.Renewable, s.LeaseDuration,
          lib.formatRFC3339 (w.clock w.ticks)⟩ := by
  simp [databaseSecretBackendCredentialsCreate, logicalRead, timeNow, hs, he]

/-- Witness of `create_success` (C3): backend `database/`, role `readonly`; the
read goes to `database/creds/readonly` and the record takes the lease `abc`. -/
theorem create_success_witness :
    databaseSecretBackendCredentialsPath "database/" "readonly" = "database/creds/readonly" ∧
    (databaseSecretBackendCredentialsCreate goUTC okClient newRecord
        (freshWorld (constClock t2020))).exit = Exit.returned none ∧
    (databaseSecretBackendCredentialsCreate goUTC okClient newRecord
        (freshWorld (constClock t2020))).w.calls = [Call.read "database/creds/readonly"] ∧
    (databaseSecretBackendCredentialsCreate goUTC okClient newRecord
        (freshWorld (constClock t2020))).d
      = ⟨"abc", "readonly", "database/", "u1", "p1", true, 3600, "2020-01-01T00:00:00Z"⟩ :=
  ⟨by decide,
    create_success goUTC okClient newRecord (freshWorld (constClock t2020))
      ⟨"abc", 3600, true,
        fun k => if k = "username" then some "u1" else if k = "password" then some "p1"
          else none⟩
      rfl rfl⟩

/-- C6: when the gateway read fails with cause `e`, Create returns the error
`Error creating role <name> for backend <backend>: <e>` (name and backend in
their `%q` rendering), has made that one read, and leaves the record as it
was. -/
theorem create_read_error (lib : GoLib) (client : Client) (d : ResourceData) (w : World)
    (e : String)
    (he : (client.read w.calls
      (databaseSecretBackendCredentialsPath d.backend d.name)).err = some e) :
    (databaseSecretBackendCredentialsCreate lib client d w).exit
      = Exit.returned (some ("Error creating role " ++ lib.quote d.name ++ " for backend "
          ++ lib.quote d.backend ++ ": " ++ e)) ∧
    (databaseSecretBackendCredentialsCreate lib client d w).d = d ∧
    (databaseSecretBackendCredentialsCreate lib client d w).w.calls
      = w.calls ++ [Call.read (databaseSecretBackendCredentialsPath d.backend d.name)] := by
  simp [databaseSecretBackendCredentialsCreate, logicalRead, he]

/-- Witness of `create_read_error` (C6): a gateway that denies permission. -/
theorem create_read_error_witness :
    (databaseSecretBackendCredentialsCreate goUTC failClient (leaseOf 3600)
        (freshWorld (constClock t2020))).exit
      = Exit.returned (some
          "Error creating role \"readonly\" for backend \"database/\": permission denied") ∧
    (databaseSecretBackendCredentialsCreate goUTC failClient (leaseOf 3600)
        (freshWorld (constClock t2020))).d = leaseOf 3600 ∧
    (databaseSecretBackendCredentialsCreate goUTC failClient (leaseOf 3600)
        (freshWorld (constClock t2020))).w.calls = [Call.read "database/creds/readonly"] :=
  create_read_error goUTC failClient (leaseOf 3600) (freshWorld (constClock t2020))
    "permission denied" rfl

/-- C7: Delete makes exactly one gateway call, the revoke of the record's id, and
does not change the record; it returns nil exactly when that revoke succeeds, and
when the revoke fails with cause `e` it returns the error
`Error revoking credentials <id>: <e>` (the id in its `%q` rendering). -/
theorem delete_revokes_once (lib : GoLib) (client : Client) (d : ResourceData) (w : World) :
    (databaseSecretBackendCredentialsDelete lib client d w).w.calls
      = w.calls ++ [Call.revoke d.id] ∧
    (databaseSecretBackendCredentialsDelete lib client d w).d = d ∧
    ((databaseSecretBackendCredentialsDelete lib client d w).exit = Exit.returned none ↔
      client.revoke w.calls d.id = none) ∧
    (∀ e : String, client.revoke w.calls d.id = some e →
      (databaseSecretBackendCredentialsDelete lib client d w).exit
        = Exit.returned (some ("Error revoking credentials " ++ lib.quote d.id ++ ": " ++ e))) := by
  unfold databaseSecretBackendCredentialsDelete sysRevoke
  cases hr : client.revoke w.calls d.id with
  | none => simp
  | some e => simp

/-- Witness of `delete_revokes_once` (C7): revoking the lease `abc` at a gateway
that denies permission. -/
theorem delete_revokes_once_witness :
    (databaseSecretBackendCredentialsDelete goUTC failClient (leaseOf 3600)
        (freshWorld (constClock t2020))).exit
      = Exit.returned (some "Error revoking credentials \"abc\": permission denied") :=
  (delete_revokes_once goUTC failClient (leaseOf 3600) (freshWorld (constClock t2020))).2.2.2
    "permission denied" rfl

/-- C9, the code at a failing input: the gateway read returns no secret and no
error; Create passes the error check and panics on `secret.LeaseID`. -/
theorem create_nil_secret_panics :
    (emptyClient.read [] (databaseSecretBackendCredentialsPath "database/" "readonly")).err
      = none ∧
    (databaseSecretBackendCredentialsCreate goUTC emptyClient newRecord
      (freshWorld (constClock t2020))).exit = Exit.panicked := by
  decide

/-- C8: when the gate reports not due, Read returns nil, makes no gateway call
and leaves the record as the gate left it; a record of 3600 seconds whose
`lease_started` parses to the instant both checks read is left untouched; Read
changes the call log only when the gate reports due, and then Read is Create on
the same record, two clock readings later. -/
theorem read_gate (lib : GoLib) (client : Client) (d : ResourceData) (w : World) :
    ((leaseExpiringSoon lib d w).1 = false →
      (databaseSecretBackendCredentialsRead lib client d w).exit = Exit.returned none ∧
      (databaseSecretBackendCredentialsRead lib client d w).d = (leaseExpiringSoon lib d w).2.1 ∧
      (databaseSecretBackendCredentialsRead lib client d w).w.calls = w.calls) ∧
    (∀ S : Int, lib.parseRFC3339 d.lease_started = some S → d.lease_duration = 3600 →
      w.clock w.ticks = S → w.clock (w.ticks + 1) = S →
      (databaseSecretBackendCredentialsRead lib client d w).exit = Exit.returned none ∧
      (databaseSecretBackendCredentialsRead lib client d w).d = d ∧
      (databaseSecretBackendCredentialsRead lib client d w).w.calls = w.calls) ∧
    ((databaseSecretBackendCredentialsRead lib client d w).w.calls ≠ w.calls →
      (leaseExpiringSoon lib d w).1 = true) ∧
    ((leaseExpiringSoon lib d w).1 = true →
      databaseSecretBackendCredentialsRead lib client d w
        = databaseSecretBackendCredentialsCreate lib client d
            { w with ticks := w.ticks + 2 }) := by
  have hfalse : (leaseExpiringSoon lib d w).1 = false →
      (databaseSecretBackendCredentialsRead lib client d w).exit = Exit.returned none ∧
      (databaseSecretBackendCredentialsRead lib client d w).d = (leaseExpiringSoon lib d w).2.1 ∧
      (databaseSecretBackendCredentialsRead lib client d w).w.calls = w.calls := by
    intro hg
    refine ⟨?_, ?_, ?_⟩
    · simp [databaseSecretBackendCredentialsRead, hg]
    · simp [databaseSecretBackendCredentialsRead, hg]
    · simp [databaseSecretBackendCredentialsRead, hg, leaseExpiringSoon_calls]
  refine ⟨hfalse, ?_, ?_, ?_⟩
  · intro S hS hdur h1 h2
    have hg : (leaseExpiringSoon lib d w).1 = false := by
      rw [leaseExpiringSoon_verdict lib d w S hS, hdur, h1, h2]
      have hD : durationMul timeSecond 3600 = 3600000000000 := by decide
      rw [hD]
      have hb : ¬ (S + 3600000000000 ≤ S - 300000000000) := by omega
      simp [hb]
    have hf := hfalse hg
    rw [leaseExpiringSoon_record lib d w S hS] at hf
    exact hf
  · intro hc
    cases hg : (leaseExpiringSoon lib d w).1 with
    | true => rfl
    | false => exact absurd (hfalse hg).2.2 hc
  · intro hg
    have hst := leaseExpiringSoon_due_state lib d w hg
    unfold databaseSecretBackendCredentialsRead
    simp only [hg, Bool.not_true, hst]
    rfl

/-- Witness of `read_gate` (C8): a lease of 3600 seconds read at the instant it
started is left untouched and no call is made; a lease that expired exactly five
minutes ago is issued again by the one read of `database/creds/readonly`. -/
theorem read_gate_witness :
    ((databaseSecretBackendCredentialsRead goUTC okClient (leaseOf 3600)
        (freshWorld (constClock t2020))).exit = Exit.returned none ∧
      (databaseSecretBackendCredentialsRead goUTC okClient (leaseOf 3600)
        (freshWorld (constClock t2020))).d = leaseOf 3600 ∧
      (databaseSecretBackendCredentialsRead goUTC okClient (leaseOf 3600)
        (freshWorld (constClock t2020))).w.calls = []) ∧
    ((databaseSecretBackendCredentialsRead goUTC okClient (leaseOf 3600)
        (freshWorld (constClock t2020))).exit = Exit.returned none ∧
      (databaseSecretBackendCredentialsRead goUTC okClient (leaseOf 3600)
        (freshWorld (constClock t2020))).d
        = (leaseExpiringSoon goUTC (leaseOf 3600) (freshWorld (constClock t2020))).2.1 ∧
      (databaseSecretBackendCredentialsRead goUTC okClient (leaseOf 3600)
        (freshWorld (constClock t2020))).w.calls = []) ∧
    (leaseExpiringSoon goUTC (leaseOf 0)
      (freshWorld (constClock (t2020 + 300000000000)))).1 = true ∧
    databaseSecretBackendCredentialsRead goUTC okClient (leaseOf 0)
        (freshWorld (constClock (t2020 + 300000000000)))
      = databaseSecretBackendCredentialsCreate goUTC okClient (leaseOf 0)
          ⟨constClock (t2020 + 300000000000), 2, []⟩ :=
  ⟨(read_gate goUTC okClient (leaseOf 3600) (freshWorld (constClock t2020))).2.1
      t2020 (by decide) rfl rfl rfl,
    (read_gate goUTC okClient (leaseOf 3600) (freshWorld (constClock t2020))).1 (by decide),
    (read_gate goUTC okClient (leaseOf 0)
      (freshWorld (constClock (t2020 + 300000000000)))).2.2.1 (by decide),
    (read_gate goUTC okClient (leaseOf 0)
      (freshWorld (constClock (t2020 + 300000000000)))).2.2.2 (by decide)⟩

end Vault
